import Mathlib

/-!
# Verification of the OORT DataHub Africa assistant orchestration layer

Shallow embedding of `app.py` (session orchestration of a voice-enabled
question-answering assistant).  The mutable Streamlit session state becomes an
explicit `SessionState` record; each handler becomes a pure function from the
old state (plus the outcomes of external collaborators, passed as parameters)
to the new state together with the lists of UI effects and dispatched
background tasks it produces.  External collaborators (knowledge base,
recognition, synthesis) are out of scope per the design and enter only through
their interface: `kb.query` is a function argument that may raise
(`Except String String`), `voice_input.listen` outcomes are an
`Except String (Option String)` argument, and speech synthesis is modelled at
the dispatch boundary.
-/

/-- Message role, from the `"role"` field of the dictionaries appended in
`process_input` (app.py lines 104 and 110). -/
inductive Role
  | user
  | assistant
deriving Repr, DecidableEq

/-- One chat message: `{"role": ..., "content": ...}` (app.py lines 104, 110). -/
structure Message where
  role : Role
  content : String
deriving Repr, DecidableEq

/-- The Streamlit session state fields initialised at app.py lines 26-36:
`messages`, `recording`, `language` and `last_voice_input` (the staged
pending transcript). -/
structure SessionState where
  messages : List Message
  recording : Bool
  language : String
  last_voice_input : Option String
deriving Repr, DecidableEq

/-- A dispatched speech-synthesis background task: the arguments handed to
`threading.Thread(target=voice_output.speak, args=(response, language))` at
app.py line 113. -/
structure SpeakTask where
  text : String
  language : String
deriving Repr, DecidableEq

/-- Background tasks dispatched by `toggle_recording` (app.py line 63). -/
inductive BgTask
  | listenTask
deriving Repr, DecidableEq

/-- UI effects emitted by `record_audio`: status messages
(`st.error` / `st.success` / `st.warning`) and refresh requests (`st.rerun`). -/
inductive UIEvent
  | errorMsg (m : String)
  | successMsg (m : String)
  | warningMsg (m : String)
  | rerunReq
deriving Repr, DecidableEq

/-- Python `str.isspace()` truth for one character, restricted to the ASCII
whitespace characters that can occur here. -/
def pyIsSpaceChar (c : Char) : Bool :=
  c = ' ' || c = '\t' || c = '\n' || c = '\r' || c = '\x0b' || c = '\x0c'

/-- Python `user_input.isspace()`: true iff the string is non-empty and every
character is whitespace (app.py line 96). -/
def pyIsSpace (s : String) : Bool :=
  !(s == "") && s.data.all pyIsSpaceChar

/-- The duplicate guard of app.py line 100: `messages` is non-empty, its last
entry has role `"user"` and its content equals the new input. -/
def isDupOfLast (msgs : List Message) (text : String) : Bool :=
  match msgs.getLast? with
  | some m => m.role == Role.user && m.content == text
  | none => false

/-- `process_input(user_input)` of app.py lines 94-113.  `kbQuery` stands for
`kb.query(user_input, language=...)`, which may raise (`Except.error`).  The
result is the new session state, the list of speech-synthesis tasks dispatched
via `threading.Thread` (line 113), and the exception propagated to the caller,
if any.  Because `st.session_state` is mutated in place, an exception from the
knowledge base leaves the already-appended user message in the state. -/
def process_input (kbQuery : String → String → Except String String)
    (s : SessionState) (user_input : String) :
    SessionState × List SpeakTask × Option String :=
  if user_input == "" || pyIsSpace user_input then
    (s, [], none)
  else if isDupOfLast s.messages user_input then
    (s, [], none)
  else
    let s1 : SessionState :=
      { s with messages := s.messages ++ [{ role := Role.user, content := user_input }] }
    match kbQuery user_input s.language with
    | Except.error e => (s1, [], some e)
    | Except.ok response =>
        ({ s1 with messages := s1.messages ++ [{ role := Role.assistant, content := response }] },
         [{ text := response, language := s.language }], none)

/-- `toggle_recording()` of app.py lines 55-63: if recording, clear the flag
and return (dispatching nothing and cancelling nothing); otherwise set the
flag and start `record_audio` on a new thread. -/
def toggle_recording (s : SessionState) : SessionState × List BgTask :=
  if s.recording then
    ({ s with recording := false }, [])
  else
    ({ s with recording := true }, [BgTask.listenTask])

/-- The warning text of app.py line 83. -/
def didNotHearMsg : String := "I didn\x27t hear anything. Please try speaking again."

/-- The error text of app.py line 68. -/
def unreadyMsg : String :=
  "Voice input is not available. Please check if the speech recognition models are properly installed."

/-- `record_audio()` of app.py lines 65-91.  `is_ready` is
`voice_input.is_ready()`; `listen_result` is the outcome of
`voice_input.listen(...)`: `Except.error` when recognition raises, otherwise
the optional recognised text (`none` on silence or the 15-second timeout).
Python truthiness of `if text:` makes `some ""` behave like `none`.
The `finally` block (lines 88-91) clears `recording` and calls `st.rerun()`
on every path out of the `try`; the unready early return (lines 67-71) does
the same clearing and rerun by hand. -/
def record_audio (is_ready : Bool) (listen_result : Except String (Option String))
    (s : SessionState) : SessionState × List UIEvent :=
  if !is_ready then
    ({ s with recording := false }, [UIEvent.errorMsg unreadyMsg, UIEvent.rerunReq])
  else
    match listen_result with
    | Except.error e =>
        ({ s with recording := false },
         [UIEvent.errorMsg ("Error during voice recognition: " ++ e), UIEvent.rerunReq])
    | Except.ok none =>
        ({ s with recording := false },
         [UIEvent.warningMsg didNotHearMsg, UIEvent.rerunReq])
    | Except.ok (some t) =>
        if t == "" then
          ({ s with recording := false },
           [UIEvent.warningMsg didNotHearMsg, UIEvent.rerunReq])
        else
          ({ s with last_voice_input := some t, recording := false },
           [UIEvent.successMsg ("Recognized: " ++ t), UIEvent.rerunReq])

/-- Number of refresh requests among a list of UI effects. -/
def countRerun (evs : List UIEvent) : Nat :=
  (evs.filter fun e =>
    match e with
    | UIEvent.rerunReq => true
    | _ => false).length

/-- The transcript-consuming step at the start of each refresh cycle
(app.py lines 185-188): if `last_voice_input` is truthy, copy it out, clear
it, and only then call `process_input` on the copied text. -/
def consume_pending (kbQuery : String → String → Except String String)
    (s : SessionState) : SessionState × List SpeakTask × Option String :=
  match s.last_voice_input with
  | none => (s, [], none)
  | some t =>
      if t == "" then (s, [], none)
      else process_input kbQuery { s with last_voice_input := none } t

/-! ## Concrete instances used by the witnesses -/

/-- A concrete, always-succeeding knowledge base for witnesses. -/
def kbDemo : String → String → Except String String :=
  fun t l => Except.ok ("answer to " ++ t ++ " in " ++ l)

/-- A concrete, always-raising knowledge base for witnesses. -/
def kbFail : String → String → Except String String :=
  fun _ _ => Except.error "kb exploded"

/-- The initial session state of app.py lines 26-36. -/
def s0 : SessionState :=
  { messages := [], recording := false, language := "english", last_voice_input := none }

/-- A state with the recording flag set, as during an in-flight listen task. -/
def sRec : SessionState := { s0 with recording := true }

/-! ## Theorems -/

/-- C7: For every input text that is empty or consists only of whitespace,
`process_input` changes no session state, dispatches no task, and surfaces no
error. -/
theorem process_input_blank_noop (kbQuery : String → String → Except String String)
    (s : SessionState) (t : String) (h : t = "" ∨ pyIsSpace t = true) :
    process_input kbQuery s t = (s, [], none) := by
  unfold process_input
  rcases h with h | h
  · subst h
    simp
  · simp [h]

/-- C7 witness: `process_input` on the whitespace string `"  "` leaves the
initial state unchanged. -/
theorem process_input_blank_noop_witness :
    process_input kbDemo s0 "  " = (s0, [], none) :=
  process_input_blank_noop kbDemo s0 "  " (Or.inr (by decide))

/-- C6: whenever the most recent message is a user message whose content
equals the input text, `process_input` is a no-op: nothing is appended,
nothing is dispatched, no error surfaces. -/
theorem process_input_dup_noop (kbQuery : String → String → Except String String)
    (s : SessionState) (t : String)
    (hlast : s.messages.getLast? = some { role := Role.user, content := t }) :
    process_input kbQuery s t = (s, [], none) := by
  unfold process_input
  have hdup : isDupOfLast s.messages t = true := by
    unfold isDupOfLast
    rw [hlast]
    simp
  by_cases hblank : (t == "" || pyIsSpace t) = true
  · simp [hblank]
  · simp only [hblank]
    simp [hdup]

/-- C6 witness: resubmitting the text of the most recent user message is a
no-op. -/
theorem process_input_dup_noop_witness :
    process_input kbDemo
      { s0 with messages := [{ role := Role.user, content := "hi" }] } "hi" =
      ({ s0 with messages := [{ role := Role.user, content := "hi" }] }, [], none) :=
  process_input_dup_noop kbDemo
    { s0 with messages := [{ role := Role.user, content := "hi" }] } "hi" rfl

/-- C1: on a non-empty, non-whitespace, non-duplicate input whose knowledge
base query returns `response`, `process_input` appends exactly the user
message followed by the assistant message carrying `response`, and dispatches
exactly one synthesis task for `(response, language)`. -/
theorem process_input_appends_two (kbQuery : String → String → Except String String)
    (s : SessionState) (t response : String)
    (hne : ¬t = "") (hws : pyIsSpace t = false)
    (hdup : isDupOfLast s.messages t = false)
    (hkb : kbQuery t s.language = Except.ok response) :
    process_input kbQuery s t =
      ({ s with messages := s.messages ++
          [{ role := Role.user, content := t },
           { role := Role.assistant, content := response }] },
       [{ text := response, language := s.language }], none) := by
  have hne' : (t == "") = false := by
    simpa using hne
  unfold process_input
  simp only [hne', hws, Bool.or_self, if_false, hdup, hkb]
  simp

/-- C1 witness: submitting `"hello"` to the initial state appends the user
message and the knowledge-base answer and dispatches one synthesis task. -/
theorem process_input_appends_two_witness :
    process_input kbDemo s0 "hello" =
      ({ s0 with messages := s0.messages ++
          [{ role := Role.user, content := "hello" },
           { role := Role.assistant, content := "answer to hello in english" }] },
       [{ text := "answer to hello in english", language := "english" }], none) :=
  process_input_appends_two kbDemo s0 "hello" "answer to hello in english"
    (by decide) (by decide) (by decide) rfl

/-- C10: when the knowledge-base query raises after the empty and duplicate
checks pass, the call is not atomic: the user message is already appended, no
assistant message is appended, no synthesis task is dispatched, and the
exception propagates to the caller. -/
theorem process_input_kb_failure (kbQuery : String → String → Except String String)
    (s : SessionState) (t e : String)
    (hne : ¬t = "") (hws : pyIsSpace t = false)
    (hdup : isDupOfLast s.messages t = false)
    (hkb : kbQuery t s.language = Except.error e) :
    process_input kbQuery s t =
      ({ s with messages := s.messages ++ [{ role := Role.user, content := t }] },
       [], some e) := by
  have hne' : (t == "") = false := by
    simpa using hne
  unfold process_input
  simp only [hne', hws, Bool.or_self, if_false, hdup, hkb]
  simp

/-- C10 witness: with an always-raising knowledge base, submitting `"hello"`
leaves only the user message appended and propagates the error. -/
theorem process_input_kb_failure_witness :
    process_input kbFail s0 "hello" =
      ({ s0 with messages := s0.messages ++ [{ role := Role.user, content := "hello" }] },
       [], some "kb exploded") :=
  process_input_kb_failure kbFail s0 "hello" "kb exploded"
    (by decide) (by decide) (by decide) rfl

/-- `process_input` never writes `last_voice_input`: only `record_audio`
stages a transcript and only the refresh cycle clears one. -/
theorem process_input_preserves_lvi (kbQuery : String → String → Except String String)
    (s : SessionState) (t : String) :
    ((process_input kbQuery s t).1).last_voice_input = s.last_voice_input := by
  unfold process_input
  split
  · rfl
  · split
    · rfl
    · cases kbQuery t s.language <;> rfl

/-- C2: a staged transcript is consumed at most once.  If `last_voice_input`
holds a truthy transcript `t`, the refresh cycle processes exactly
`process_input` on the state with the transcript already cleared; afterwards
`last_voice_input` is `none`, and a further refresh cycle is a no-op on the
transcript path. -/
theorem pending_transcript_consumed_once
    (kbQuery : String → String → Except String String)
    (s : SessionState) (t : String)
    (hset : s.last_voice_input = some t) (hne : ¬t = "") :
    consume_pending kbQuery s =
      process_input kbQuery { s with last_voice_input := none } t ∧
    ((consume_pending kbQuery s).1).last_voice_input = none ∧
    consume_pending kbQuery (consume_pending kbQuery s).1 =
      ((consume_pending kbQuery s).1, [], none) := by
  have hne' : (t == "") = false := by
    simpa using hne
  have h1 : consume_pending kbQuery s =
      process_input kbQuery { s with last_voice_input := none } t := by
    unfold consume_pending
    rw [hset]
    simp [hne']
  have h2 : ((consume_pending kbQuery s).1).last_voice_input = none := by
    rw [h1, process_input_preserves_lvi]
  have h3 : ∀ s1 : SessionState, s1.last_voice_input = none →
      consume_pending kbQuery s1 = (s1, [], none) := by
    intro s1 h
    unfold consume_pending
    rw [h]
  exact ⟨h1, h2, h3 _ h2⟩

/-- C2 witness: with the transcript `"hi"` staged, one refresh cycle consumes
it, clears it, and the next cycle does not process it again. -/
theorem pending_transcript_consumed_once_witness :
    consume_pending kbDemo { s0 with last_voice_input := some "hi" } =
      process_input kbDemo
        { { s0 with last_voice_input := some "hi" } with last_voice_input := none } "hi" ∧
    ((consume_pending kbDemo { s0 with last_voice_input := some "hi" }).1).last_voice_input
      = none ∧
    consume_pending kbDemo
        (consume_pending kbDemo { s0 with last_voice_input := some "hi" }).1 =
      ((consume_pending kbDemo { s0 with last_voice_input := some "hi" }).1, [], none) :=
  pending_transcript_consumed_once kbDemo
    { s0 with last_voice_input := some "hi" } "hi" rfl (by decide)

/-- C3: every exit path of the listen task — unready pre-check, recognised
text, empty result, recognition exception — leaves `recording` false and
requests exactly one refresh. -/
theorem record_audio_cleanup (is_ready : Bool)
    (listen_result : Except String (Option String)) (s : SessionState) :
    ((record_audio is_ready listen_result s).1).recording = false ∧
    countRerun (record_audio is_ready listen_result s).2 = 1 := by
  unfold record_audio
  cases is_ready with
  | false => exact ⟨rfl, rfl⟩
  | true =>
    cases listen_result with
    | error e => exact ⟨rfl, rfl⟩
    | ok r =>
      cases r with
      | none => exact ⟨rfl, rfl⟩
      | some t =>
        cases h : t == "" <;> simp [h, countRerun]

/-- C8: an empty recognition result (silence / 15-second timeout) surfaces the
did-not-hear warning, clears `recording`, and stages no transcript: starting
from a state with no pending transcript, `last_voice_input` stays `none`. -/
theorem record_audio_empty_result (s : SessionState)
    (hlvi : s.last_voice_input = none) :
    record_audio true (Except.ok none) s =
      ({ s with recording := false },
       [UIEvent.warningMsg didNotHearMsg, UIEvent.rerunReq]) ∧
    ((record_audio true (Except.ok none) s).1).recording = false ∧
    ((record_audio true (Except.ok none) s).1).last_voice_input = none := by
  exact ⟨rfl, rfl, hlvi⟩

/-- C8 witness: an empty result on the recording state emits the warning and
resets the flags. -/
theorem record_audio_empty_result_witness :
    record_audio true (Except.ok none) sRec =
      ({ sRec with recording := false },
       [UIEvent.warningMsg didNotHearMsg, UIEvent.rerunReq]) ∧
    ((record_audio true (Except.ok none) sRec).1).recording = false ∧
    ((record_audio true (Except.ok none) sRec).1).last_voice_input = none :=
  record_audio_empty_result sRec rfl

/-- C9: toggling while recording only clears the flag — no task is dispatched
and nothing cancels the in-flight one; toggling while idle sets the flag and
dispatches exactly one listen task. -/
theorem toggle_recording_cases (s : SessionState) :
    (s.recording = true →
      toggle_recording s = ({ s with recording := false }, [])) ∧
    (s.recording = false →
      toggle_recording s = ({ s with recording := true }, [BgTask.listenTask])) := by
  constructor
  · intro h
    unfold toggle_recording
    simp [h]
  · intro h
    unfold toggle_recording
    simp [h]

/-- C9 witness: both branches of `toggle_recording` evaluated at concrete
states. -/
theorem toggle_recording_cases_witness :
    toggle_recording sRec = ({ sRec with recording := false }, []) ∧
    toggle_recording s0 = ({ s0 with recording := true }, [BgTask.listenTask]) :=
  ⟨(toggle_recording_cases sRec).1 rfl, (toggle_recording_cases s0).2 rfl⟩

/-! ## Duplicate submission scenario -/

/-- The doubled submission of the scenario. -/
def q4 : String := "When does the program start?"

/-- The state produced by the first, completed `process_input` call on `q4`
from the initial state. -/
def s4 : SessionState := (process_input kbDemo s0 q4).1

/-- C4 evaluated on the code: after the first completed call the most recent
message is the assistant response, not the user message, so the duplicate
guard of app.py line 100 (which inspects only `messages[-1]`) does not fire.
The second identical submission therefore appends two further messages and
dispatches a second synthesis task, contradicting the claimed no-op. -/
theorem duplicate_submission_reprocessed :
    s4.messages.length = 2 ∧
    (s4.messages.getLast?.map Message.role) = some Role.assistant ∧
    ((process_input kbDemo s4 q4).1).messages.length = 4 ∧
    (process_input kbDemo s4 q4).2.1.length = 1 :=
  ⟨rfl, rfl, rfl, rfl⟩

/-! ## Speech-synthesis task -/

/-- Audible side effects of the synthesis task. -/
inductive AudioEffect
  | played (text : String) (language : String)
deriving Repr, DecidableEq

/-- Modelled from the spec: the body of `VoiceOutput.speak` lives in
`src/voice_output.py`, which is not among the provided sources; only its
dispatch site (app.py line 113) is.  Per the spec, `speak` checks synthesis
readiness first and plays audio only when ready; it may raise on a playback
failure (`play_raises` abstracts that), and an unready synthesizer produces
no playback and no error. -/
def speak (synth_ready : Bool) (play_raises : Bool) (text lang : String) :
    List AudioEffect × Option String :=
  if !synth_ready then ([], none)
  else if play_raises then ([], some "synthesis failed")
  else ([AudioEffect.played text lang], none)

/-- Executing one dispatched synthesis task on its detached thread (app.py
line 113).  `speak` never touches the session state, and an exception raised
inside a Python `threading.Thread` target terminates only that thread — it is
never re-raised on the refresh-cycle thread, so the propagated-error component
seen by the orchestration is always `none`. -/
def run_speak_thread (synth_ready play_raises : Bool) (task : SpeakTask)
    (s : SessionState) : SessionState × List AudioEffect × Option String :=
  (s, (speak synth_ready play_raises task.text task.language).1, none)

/-- C5: the dispatched synthesis task plays audio only when the readiness
check passes and playback succeeds; in every case — including synthesis
failure — the session state (hence the text response already in the history)
is unchanged and no exception reaches the orchestration. -/
theorem speak_task_silent (synth_ready play_raises : Bool) (task : SpeakTask)
    (s : SessionState) :
    run_speak_thread synth_ready play_raises task s =
      (s,
       if synth_ready && !play_raises
         then [AudioEffect.played task.text task.language] else [],
       none) := by
  cases synth_ready <;> cases play_raises <;> rfl
